import Mathlib

/-!
Verification of the mytriv-erp business-logic layer.

The repository is an ERP system written as addons (accounting, CRM, HR) on
top of a web framework with an ORM.  This file gives a shallow embedding of
the business-logic methods that the specification talks about: monetary
amounts become rationals, dates become a Gregorian calendar structure with
the same partial `replace` operation as the Python `datetime.date` type,
exceptions become `Except String`, and record mutation becomes explicit
state passing.  Each embedded definition mirrors one Python method of the
source tree.
-/

set_option autoImplicit false

namespace MytrivERP

/-- Monetary amounts (Python floats used as exact decimals) are modelled as
rationals so that sums and tolerance comparisons are exact. -/
abbrev Money := ℚ

/-! ## Calendar model (Python datetime.date) -/

/-- A Gregorian calendar date, as in the Python datetime module. -/
structure Date where
  year : Int
  month : Nat
  day : Nat
deriving DecidableEq

/-- Gregorian leap-year rule. -/
def isLeap (y : Int) : Bool :=
  (y % 4 == 0 && y % 100 != 0) || (y % 400 == 0)

/-- Number of days of a month in a given year. -/
def daysInMonth (y : Int) (m : Nat) : Nat :=
  if m = 2 then (if isLeap y then 29 else 28)
  else if m = 4 ∨ m = 6 ∨ m = 9 ∨ m = 11 then 30
  else 31

/-- A date is valid when the month is 1..12 and the day exists in that
month. -/
def Date.valid (d : Date) : Bool :=
  1 ≤ d.month && d.month ≤ 12 && 1 ≤ d.day && d.day ≤ daysInMonth d.year d.month

/-- The day after a given date (Python: date + timedelta(days=1)). -/
def Date.nextDay (d : Date) : Date :=
  if d.day < daysInMonth d.year d.month then { d with day := d.day + 1 }
  else if d.month < 12 then { d with month := d.month + 1, day := 1 }
  else { year := d.year + 1, month := 1, day := 1 }

/-- Adding a number of days (Python: date + timedelta(days=n)). -/
def Date.addDays : Nat → Date → Date
  | 0, d => d
  | n + 1, d => Date.addDays n d.nextDay

/-- The day before a given date (Python: date - timedelta(days=1)). -/
def Date.predDay (d : Date) : Date :=
  if 1 < d.day then { d with day := d.day - 1 }
  else if 1 < d.month then { d with month := d.month - 1, day := daysInMonth d.year (d.month - 1) }
  else { year := d.year - 1, month := 12, day := 31 }

/-- Chronological order on dates (lexicographic on year, month, day),
matching comparison of Python date objects. -/
def Date.le (a b : Date) : Prop :=
  a.year < b.year ∨ (a.year = b.year ∧
    (a.month < b.month ∨ (a.month = b.month ∧ a.day ≤ b.day)))

instance Date.decLe (a b : Date) : Decidable (Date.le a b) := by
  unfold Date.le
  exact inferInstance

/-- Python date.replace(year=y, month=m): keeps the day and raises
ValueError when the resulting date is invalid; modelled as Option. -/
def Date.replaceYM (d : Date) (y : Int) (m : Nat) : Option Date :=
  let d2 : Date := { year := y, month := m, day := d.day }
  if d2.valid then some d2 else none

/-- Two-digit month or day rendering (Python format 02d). -/
def pad2 (n : Nat) : String :=
  if n < 10 then "0" ++ toString n else toString n

/-- ISO rendering of a date as produced by Python str(date). -/
def Date.toIso (d : Date) : String :=
  toString d.year ++ "-" ++ pad2 d.month ++ "-" ++ pad2 d.day

/-! ## account_custom/models/journal_entry_custom.py -/

/-- The recurring_period selection field of account.move.custom. -/
inductive RecurringPeriod where
  | daily
  | weekly
  | monthly
  | quarterly
  | yearly
deriving DecidableEq

/-- The state field of a journal entry (from the inherited account.move). -/
inductive MoveState where
  | draft
  | posted
  | cancel
deriving DecidableEq

/-- The entry_type selection field of account.move.custom. -/
inductive EntryType where
  | manual
  | automated
  | recurring
  | adjustment
  | reversal
deriving DecidableEq

/-- The message of the Python ValueError raised by date.replace when the
kept day does not exist in the target month. -/
def valueErrorDayRange : String := "day is out of range for month"

/-- Embedding of JournalEntryCustom._calculate_next_recurring_date.  The
record fields read by the method are passed explicitly; the Python return
value False is modelled as Except.ok none, and an uncaught ValueError from
date.replace as Except.error. -/
def calcNextRecurringDate (next_recurring_date : Option Date)
    (recurring_period : Option RecurringPeriod) : Except String (Option Date) :=
  match next_recurring_date with
  | none => Except.ok none
  | some current_date =>
    match recurring_period with
    | some RecurringPeriod.daily => Except.ok (some (Date.addDays 1 current_date))
    | some RecurringPeriod.weekly => Except.ok (some (Date.addDays 7 current_date))
    | some RecurringPeriod.monthly =>
        if current_date.month = 12 then
          match current_date.replaceYM (current_date.year + 1) 1 with
          | some d => Except.ok (some d)
          | none => Except.error valueErrorDayRange
        else
          match current_date.replaceYM current_date.year (current_date.month + 1) with
          | some d => Except.ok (some d)
          | none => Except.error valueErrorDayRange
    | some RecurringPeriod.quarterly =>
        let new_month := current_date.month + 3
        let new_year := current_date.year
        let p : Int × Nat :=
          if new_month > 12 then (new_year + ((new_month / 12 : Nat) : Int), new_month % 12)
          else (new_year, new_month)
        match current_date.replaceYM p.1 p.2 with
        | some d => Except.ok (some d)
        | none => Except.error valueErrorDayRange
    | some RecurringPeriod.yearly =>
        match current_date.replaceYM (current_date.year + 1) current_date.month with
        | some d => Except.ok (some d)
        | none => Except.error valueErrorDayRange
    | none => Except.ok none

/-- A journal entry line (account.move.line) as used by the custom journal
entry methods: account, label, amounts and optional maturity date. -/
structure MoveLine where
  account_id : Nat
  name : String
  debit : Money
  credit : Money
  date_maturity : Option Date
deriving DecidableEq

/-- The fields of account.move.custom that the verified methods read or
write. -/
structure Move where
  date : Option Date
  ref : Option String
  entry_type : EntryType
  is_recurring : Bool
  recurring_period : Option RecurringPeriod
  next_recurring_date : Option Date
  state : MoveState
  line_ids : List MoveLine
deriving DecidableEq

/-- Embedding of JournalEntryCustom._compute_totals for total_debit:
sum of line.debit over line_ids. -/
def totalDebit (m : Move) : Money :=
  (m.line_ids.map MoveLine.debit).sum

/-- Embedding of JournalEntryCustom._compute_totals for total_credit:
sum of line.credit over line_ids. -/
def totalCredit (m : Move) : Money :=
  (m.line_ids.map MoveLine.credit).sum

/-- The rounding tolerance 0.01 used by _compute_is_balanced. -/
def balanceTolerance : Money := 1 / 100

/-- Embedding of JournalEntryCustom._compute_is_balanced: the entry is
balanced when the absolute difference of the totals is within the
tolerance. -/
def isBalanced (m : Move) : Bool :=
  decide (|totalDebit m - totalCredit m| ≤ balanceTolerance)

/-- Embedding of JournalEntryCustom._check_balance: a posted entry that is
not balanced raises a ValidationError. -/
def checkBalance (m : Move) : Except String Unit :=
  if m.state = MoveState.posted ∧ isBalanced m = false then
    Except.error "Journal entry must be balanced (debit must equal credit) before posting."
  else Except.ok ()

/-- Python truthiness of the optional ref field: None and the empty string
are falsy. -/
def refFalsy : Option String → Bool
  | none => true
  | some r => r == ""

/-- Embedding of JournalEntryCustom._create_next_recurring_entry.  On
success the result carries the created move (or none when no next date was
computed) together with the updated original record; an uncaught ValueError
from the date computation is an error. -/
def createNextRecurringEntry (m : Move) : Except String (Option Move × Move) :=
  match calcNextRecurringDate m.next_recurring_date m.recurring_period with
  | Except.error e => Except.error e
  | Except.ok none => Except.ok (none, m)
  | Except.ok (some next_date) =>
      let new_lines := m.line_ids.map (fun line =>
        { account_id := line.account_id
          name := line.name
          debit := line.debit
          credit := line.credit
          date_maturity := if line.date_maturity.isSome then some next_date else none
          : MoveLine })
      let new_move : Move :=
        { date := some next_date
          ref := some (if refFalsy m.ref then "Recurring - " ++ next_date.toIso
                       else (m.ref.getD "") ++ " - " ++ next_date.toIso)
          entry_type := EntryType.recurring
          is_recurring := false
          recurring_period := none
          next_recurring_date := none
          state := MoveState.draft
          line_ids := new_lines }
      Except.ok (some new_move, { m with next_recurring_date := some next_date })

/-! ## account_custom/models/reconciliation_helper.py -/

/-- The status selection field of account.reconciliation.helper. -/
inductive RecStatus where
  | draft
  | in_progress
  | completed
  | failed
deriving DecidableEq

/-- An account.move.line as seen by the reconciliation helper: identifier,
amounts and the reconciled flag. -/
structure AccountMoveLine where
  id : Nat
  debit : Money
  credit : Money
  reconciled : Bool
deriving DecidableEq

/-- The fields of account.reconciliation.helper that the verified methods
read or write. -/
structure Reconciliation where
  status : RecStatus
  total_transactions : Int
  matched_transactions : Int
  unmatched_transactions : Int
  total_debits : Money
  total_credits : Money
  starting_balance : Money
  ending_balance : Money
deriving DecidableEq

/-- Embedding of ReconciliationHelper._compute_reconciled_balance. -/
def reconciledBalance (r : Reconciliation) : Money :=
  r.starting_balance + r.total_credits - r.total_debits

/-- Embedding of ReconciliationHelper._compute_difference. -/
def difference (r : Reconciliation) : Money :=
  r.ending_balance - reconciledBalance r

/-- Embedding of ReconciliationHelper.action_complete_reconciliation: the
status becomes completed when the difference is exactly zero, otherwise a
ValidationError is raised. -/
def completeReconciliation (r : Reconciliation) : Except String Reconciliation :=
  if difference r = 0 then Except.ok { r with status := RecStatus.completed }
  else Except.error "Cannot complete reconciliation with outstanding differences."

/-- The matching test of the auto-match loop: amount proximity of the line
to the statement totals, with threshold 0.01. -/
def autoMatchCond (r : Reconciliation) (line : AccountMoveLine) : Bool :=
  decide (|line.debit - r.total_debits| < (1 : Money) / 100) ||
  decide (|line.credit - r.total_credits| < (1 : Money) / 100)

/-- The loop body of action_auto_match_transactions: marks each matching
line reconciled and counts the matches. -/
def autoMatchLoop (r : Reconciliation) : List AccountMoveLine → List AccountMoveLine × Nat
  | [] => ([], 0)
  | line :: rest =>
      let o := autoMatchLoop r rest
      if autoMatchCond r line then ({ line with reconciled := true } :: o.1, o.2 + 1)
      else (line :: o.1, o.2)

/-- Embedding of ReconciliationHelper.action_auto_match_transactions.  The
candidate unreconciled move lines returned by the ORM search are passed as
a list; on success the result is the returned matched count, the updated
lines and the updated record. -/
def autoMatchTransactions (r : Reconciliation) (move_lines : List AccountMoveLine) :
    Except String (Nat × List AccountMoveLine × Reconciliation) :=
  if r.status = RecStatus.in_progress then
    let o := autoMatchLoop r move_lines
    Except.ok (o.2, o.1,
      { r with matched_transactions := (o.2 : Int),
               unmatched_transactions := r.total_transactions - (o.2 : Int) })
  else Except.error "Reconciliation must be in progress to auto-match."

/-- Embedding of ReconciliationHelper.action_manual_match.  The browse of
the move line id is modelled as a lookup in the list of lines; success
marks that line reconciled and updates both counters. -/
def manualMatch (r : Reconciliation) (lines : List AccountMoveLine) (move_line_id : Nat) :
    Except String (List AccountMoveLine × Reconciliation) :=
  if r.status = RecStatus.in_progress then
    match lines.find? (fun l => l.id == move_line_id) with
    | none => Except.error "Account move line not found."
    | some _ =>
        Except.ok (lines.map (fun l => if l.id == move_line_id then { l with reconciled := true } else l),
          { r with matched_transactions := r.matched_transactions + 1,
                   unmatched_transactions := r.unmatched_transactions - 1 })
  else Except.error "Reconciliation must be in progress to manually match."

/-! ## crm_custom/models/crm_funnel_analytics.py -/

/-- The fields of a crm.lead that _compute_analytics_data reads. -/
structure CrmLead where
  create_date : Date
  lead_qualification_status : String
  probability : ℚ
  active : Bool
  expected_revenue : Money
deriving DecidableEq

/-- The fields of crm.funnel.analytics that the verified methods read or
write. -/
structure FunnelAnalytics where
  period_name : String
  period_start : Date
  period_end : Date
  total_leads : Int
  qualified_leads : Int
  converted_leads : Int
  lost_leads : Int
  qualification_rate : ℚ
  conversion_rate : ℚ
  overall_conversion_rate : ℚ
  total_expected_revenue : Money
  total_actual_revenue : Money
deriving DecidableEq

/-- Embedding of CrmFunnelAnalytics._compute_conversion_rates: each rate is
a ratio of counts scaled by 100, guarded by a positivity test on the
denominator. -/
def computeConversionRates (r : FunnelAnalytics) : FunnelAnalytics :=
  { r with
    qualification_rate :=
      if r.total_leads > 0 then (r.qualified_leads : ℚ) / (r.total_leads : ℚ) * 100 else 0,
    conversion_rate :=
      if r.qualified_leads > 0 then (r.converted_leads : ℚ) / (r.qualified_leads : ℚ) * 100 else 0,
    overall_conversion_rate :=
      if r.total_leads > 0 then (r.converted_leads : ℚ) / (r.total_leads : ℚ) * 100 else 0 }

/-- Embedding of CrmFunnelAnalytics._compute_analytics_data: counts and
revenue sums over the leads created within the period, the lead recordset
of the ORM search being passed as a list. -/
def computeAnalyticsData (r : FunnelAnalytics) (leads : List CrmLead) : FunnelAnalytics :=
  let in_period := leads.filter (fun l =>
    decide (Date.le r.period_start l.create_date) && decide (Date.le l.create_date r.period_end))
  let converted := in_period.filter (fun l => l.probability == 100)
  { r with
    total_leads := (in_period.length : Int),
    qualified_leads := ((in_period.filter (fun l => l.lead_qualification_status == "qualified")).length : Int),
    converted_leads := (converted.length : Int),
    lost_leads := ((in_period.filter (fun l => !l.active && l.probability == 0)).length : Int),
    total_expected_revenue := (in_period.map CrmLead.expected_revenue).sum,
    total_actual_revenue := (converted.map CrmLead.expected_revenue).sum }

/-- The period name built by create_monthly_analytics
(Python format year-month:02d). -/
def periodName (year : Int) (month : Nat) : String :=
  toString year ++ "-" ++ pad2 month

/-- The period end computed by create_monthly_analytics: first day of the
next month minus one day. -/
def monthPeriodEnd (year : Int) (month : Nat) : Date :=
  if month = 12 then Date.predDay { year := year + 1, month := 1, day := 1 }
  else Date.predDay { year := year, month := month + 1, day := 1 }

/-- The record values passed to create by create_monthly_analytics; the
remaining fields take their declared defaults. -/
def freshMonthlyRecord (year : Int) (month : Nat) : FunnelAnalytics :=
  { period_name := periodName year month
    period_start := { year := year, month := month, day := 1 }
    period_end := monthPeriodEnd year month
    total_leads := 0
    qualified_leads := 0
    converted_leads := 0
    lost_leads := 0
    qualification_rate := 0
    conversion_rate := 0
    overall_conversion_rate := 0
    total_expected_revenue := 0
    total_actual_revenue := 0 }

/-- Embedding of CrmFunnelAnalytics.create_monthly_analytics.  The model
table is passed as a list of records together with the lead table used by
the analytics computation; the result is the returned record and the table
after the call. -/
def createMonthlyAnalytics (s : List FunnelAnalytics) (leads : List CrmLead)
    (year : Int) (month : Nat) : FunnelAnalytics × List FunnelAnalytics :=
  match s.filter (fun a => a.period_name == periodName year month) with
  | existing :: _ => (existing, s)
  | [] =>
      let analytics := computeAnalyticsData (freshMonthlyRecord year month) leads
      (analytics, s ++ [analytics])

/-! ## hr/models/hr_contract.py and hr/models/hr_leave.py -/

/-- The date fields of hr.contract checked by its date constraint. -/
structure HrContract where
  date_start : Date
  date_end : Option Date
deriving DecidableEq

/-- Embedding of HrContract._check_dates: raises when a set end date is on
or before the start date. -/
def contractCheckDates (c : HrContract) : Except String Unit :=
  match c.date_end with
  | some de =>
      if Date.le de c.date_start then Except.error "End date must be after start date"
      else Except.ok ()
  | none => Except.ok ()

/-- The datetime fields of hr.leave checked by its date constraint;
datetimes are modelled as integer timestamps. -/
structure HrLeave where
  date_from : Int
  date_to : Int
deriving DecidableEq

/-- Embedding of HrLeave._check_dates with the current time passed
explicitly: raises when the start is not before the end, or when the start
is in the past. -/
def leaveCheckDates (l : HrLeave) (now : Int) : Except String Unit :=
  if l.date_from ≥ l.date_to then Except.error "End date must be after start date"
  else if l.date_from < now then Except.error "Leave cannot be in the past"
  else Except.ok ()

/-! ## account_custom/controllers/account_custom_api.py -/

/-- JSON values, the return type of the controller endpoints. -/
inductive Json where
  | null
  | bool (b : Bool)
  | num (q : ℚ)
  | str (s : String)
  | arr (elems : List Json)
  | obj (fields : List (String × Json))

/-- Whether a JSON value is a dictionary. -/
def Json.isObj : Json → Bool
  | Json.obj _ => true
  | _ => false

/-- Embedding of AccountCustomAPI.get_accounts.  Everything the body does
through the framework (search, per-account serialization, total count) is
abstracted as the outcome of the try block: either the serialized account
list with the total, or an exception message.  The method wraps that
outcome in the response dictionary, catching any exception. -/
def get_accounts (body : Except String (List Json × Nat)) : Json :=
  match body with
  | Except.ok (data, total) =>
      Json.obj [("accounts", Json.arr data),
                ("count", Json.num (data.length : ℚ)),
                ("total", Json.num (total : ℚ))]
  | Except.error e => Json.obj [("error", Json.str e)]

/-- Embedding of AccountCustomAPI.process_recurring_entries, with the
outcome of the ORM call abstracted as the number of created moves or an
exception message. -/
def process_recurring_entries (body : Except String Nat) : Json :=
  match body with
  | Except.ok n =>
      Json.obj [("message", Json.str ("Processed " ++ toString n ++ " recurring entries")),
                ("created_moves_count", Json.num (n : ℚ))]
  | Except.error e => Json.obj [("error", Json.str e)]

/-- Embedding of AccountCustomAPI.get_account: the browse outcome is the
serialized account fields, or none when the account does not exist, or an
exception message. -/
def get_account (body : Except String (Option (List (String × Json)))) : Json :=
  match body with
  | Except.ok none => Json.obj [("error", Json.str "Account not found")]
  | Except.ok (some account_data) => Json.obj [("account", Json.obj account_data)]
  | Except.error e => Json.obj [("error", Json.str e)]

/-- Embedding of AccountCustomAPI.get_journal_entries, shaped like
get_accounts. -/
def get_journal_entries (body : Except String (List Json × Nat)) : Json :=
  match body with
  | Except.ok (data, total) =>
      Json.obj [("entries", Json.arr data),
                ("count", Json.num (data.length : ℚ)),
                ("total", Json.num (total : ℚ))]
  | Except.error e => Json.obj [("error", Json.str e)]

/-- Embedding of the GET reconciliation endpoint of AccountCustomAPI: the
summary computed by the model method is wrapped in a dictionary. -/
def get_reconciliation_summary_endpoint (body : Except String Json) : Json :=
  match body with
  | Except.ok summary => Json.obj [("summary", summary)]
  | Except.error e => Json.obj [("error", Json.str e)]

/-- Embedding of AccountCustomAPI.create_reconciliation: the created
record id or an exception message. -/
def create_reconciliation (body : Except String Nat) : Json :=
  match body with
  | Except.ok rid =>
      Json.obj [("id", Json.num (rid : ℚ)),
                ("message", Json.str "Reconciliation record created successfully")]
  | Except.error e => Json.obj [("error", Json.str e)]

/-- Embedding of AccountCustomAPI.get_account_dashboard. -/
def get_account_dashboard (body : Except String Json) : Json :=
  match body with
  | Except.ok dashboard_data => Json.obj [("dashboard", dashboard_data)]
  | Except.error e => Json.obj [("error", Json.str e)]

/-- Embedding of AccountCustomAPI.update_account_budget: none when the
account does not exist, otherwise the account id, the requested amount and
the resulting budget fields.  The Python float rendering inside the
message is abstracted by toString. -/
def update_account_budget (body : Except String (Option (Nat × Money × Bool × Money))) : Json :=
  match body with
  | Except.ok none => Json.obj [("error", Json.str "Account not found")]
  | Except.ok (some (aid, budget_amount, is_budgeted, new_amount)) =>
      Json.obj [("id", Json.num (aid : ℚ)),
                ("message", Json.str (if budget_amount > 0
                  then "Budget updated to " ++ toString budget_amount
                  else "Account removed from budgeting")),
                ("is_budgeted", Json.bool is_budgeted),
                ("budget_amount", Json.num new_amount)]
  | Except.error e => Json.obj [("error", Json.str e)]

/-! ## Concrete example records -/

/-- A posted journal entry whose totals differ by 0.005, inside the
tolerance. -/
def cexMoveC1 : Move :=
  { date := none, ref := none, entry_type := EntryType.manual, is_recurring := false,
    recurring_period := none, next_recurring_date := none, state := MoveState.posted,
    line_ids := [
      { account_id := 1, name := "bank", debit := 100, credit := 0, date_maturity := none },
      { account_id := 2, name := "revenue", debit := 0, credit := 100 + 1 / 200, date_maturity := none } ] }

/-- A posted journal entry whose totals differ by 100. -/
def wMoveC1 : Move :=
  { date := none, ref := none, entry_type := EntryType.manual, is_recurring := false,
    recurring_period := none, next_recurring_date := none, state := MoveState.posted,
    line_ids := [
      { account_id := 1, name := "bank", debit := 100, credit := 0, date_maturity := none } ] }

/-- An in-progress reconciliation with statement totals 50 debit, 70
credit, two transactions. -/
def rC2 : Reconciliation :=
  { status := RecStatus.in_progress, total_transactions := 2, matched_transactions := 0,
    unmatched_transactions := 0, total_debits := 50, total_credits := 70,
    starting_balance := 0, ending_balance := 20 }

/-- Two unreconciled candidate move lines: the first matches the debit
total, the second matches neither total. -/
def linesC2 : List AccountMoveLine :=
  [ { id := 1, debit := 50, credit := 0, reconciled := false },
    { id := 2, debit := 0, credit := 30, reconciled := false } ]

/-- A reconciliation whose difference is 0.005: nonzero but inside the
0.01 tolerance used elsewhere in the module. -/
def cexRecC3 : Reconciliation :=
  { status := RecStatus.in_progress, total_transactions := 0, matched_transactions := 0,
    unmatched_transactions := 0, total_debits := 0, total_credits := 0,
    starting_balance := 0, ending_balance := 1 / 200 }

/-- A reconciliation whose difference is exactly zero. -/
def wRecC3 : Reconciliation :=
  { status := RecStatus.in_progress, total_transactions := 0, matched_transactions := 0,
    unmatched_transactions := 0, total_debits := 30, total_credits := 50,
    starting_balance := 10, ending_balance := 30 }

/-- A funnel analytics record with 10 leads, 4 qualified, 2 converted. -/
def rC4 : FunnelAnalytics :=
  { period_name := "2024-01", period_start := { year := 2024, month := 1, day := 1 },
    period_end := { year := 2024, month := 1, day := 31 },
    total_leads := 10, qualified_leads := 4, converted_leads := 2, lost_leads := 1,
    qualification_rate := 0, conversion_rate := 0, overall_conversion_rate := 0,
    total_expected_revenue := 0, total_actual_revenue := 0 }

/-- A recurring journal entry due on 2024-03-10 with daily period and two
balanced lines. -/
def mC6 : Move :=
  { date := some { year := 2024, month := 3, day := 1 }, ref := some "RENT",
    entry_type := EntryType.manual, is_recurring := true,
    recurring_period := some RecurringPeriod.daily,
    next_recurring_date := some { year := 2024, month := 3, day := 10 },
    state := MoveState.posted,
    line_ids := [
      { account_id := 1, name := "rent expense", debit := 500, credit := 0, date_maturity := none },
      { account_id := 2, name := "bank", debit := 0, credit := 500,
        date_maturity := some { year := 2024, month := 3, day := 10 } } ] }

/-- A contract whose end date is the day before its start date. -/
def cC8 : HrContract :=
  { date_start := { year := 2024, month := 5, day := 1 },
    date_end := some { year := 2024, month := 4, day := 30 } }

/-- An in-progress reconciliation with one of three transactions already
matched. -/
def recC10 : Reconciliation :=
  { status := RecStatus.in_progress, total_transactions := 3, matched_transactions := 1,
    unmatched_transactions := 2, total_debits := 0, total_credits := 0,
    starting_balance := 0, ending_balance := 0 }

/-- An empty analytics table. -/
def emptyTableC9 : List FunnelAnalytics := []

/-- An empty lead table. -/
def emptyLeadsC9 : List CrmLead := []

/-! ## Theorems -/

/-- The is_balanced flag is false exactly when the totals differ by more
than the tolerance. -/
lemma isBalanced_false_iff (m : Move) :
    isBalanced m = false ↔ balanceTolerance < |totalDebit m - totalCredit m| := by
  unfold isBalanced
  rw [decide_eq_false_iff_not, not_le]

/-- Claim C1 (amended): the balance constraint raises a ValidationError
exactly when the entry is posted and the sum of line debits differs from
the sum of line credits by more than the tolerance 0.01; in every other
case it raises nothing. -/
theorem check_balance_tolerance (m : Move) :
    ((∃ e, checkBalance m = Except.error e) ↔
      (m.state = MoveState.posted ∧ balanceTolerance < |totalDebit m - totalCredit m|)) ∧
    (¬(m.state = MoveState.posted ∧ balanceTolerance < |totalDebit m - totalCredit m|) →
      checkBalance m = Except.ok ()) := by
  have hiff : (m.state = MoveState.posted ∧ isBalanced m = false) ↔
      (m.state = MoveState.posted ∧ balanceTolerance < |totalDebit m - totalCredit m|) :=
    and_congr_right fun _ => isBalanced_false_iff m
  constructor
  · constructor
    · rintro ⟨e, he⟩
      by_cases h : m.state = MoveState.posted ∧ isBalanced m = false
      · exact hiff.mp h
      · rw [checkBalance, if_neg h] at he
        exact absurd he (by simp)
    · intro h
      exact ⟨_, by rw [checkBalance, if_pos (hiff.mpr h)]⟩
  · intro h
    rw [checkBalance, if_neg (fun hc => h (hiff.mp hc))]

/-- Claim C1 counterexample: a posted entry whose total debit and total
credit differ (by 0.005) on which the constraint raises nothing. -/
theorem check_balance_counterexample :
    cexMoveC1.state = MoveState.posted ∧
    totalDebit cexMoveC1 ≠ totalCredit cexMoveC1 ∧
    checkBalance cexMoveC1 = Except.ok () := by
  have hd : totalDebit cexMoveC1 = 100 := by
    simp [totalDebit, cexMoveC1]
  have hc : totalCredit cexMoveC1 = 100 + 1 / 200 := by
    simp [totalCredit, cexMoveC1]
  refine ⟨rfl, ?_, ?_⟩
  · rw [hd, hc]
    norm_num
  · rw [checkBalance, if_neg]
    rintro ⟨-, hb⟩
    rw [isBalanced_false_iff, hd, hc] at hb
    simp only [balanceTolerance, lt_abs] at hb
    rcases hb with hb | hb <;> norm_num at hb

/-- Witness for claim C1 at a posted entry unbalanced by 100. -/
theorem check_balance_tolerance_witness :
    (∃ e, checkBalance wMoveC1 = Except.error e) ↔
      (wMoveC1.state = MoveState.posted ∧
        balanceTolerance < |totalDebit wMoveC1 - totalCredit wMoveC1|) :=
  (check_balance_tolerance wMoveC1).1

/-- The auto-match loop marks the matching lines and counts them. -/
lemma autoMatchLoop_eq (r : Reconciliation) (ls : List AccountMoveLine) :
    autoMatchLoop r ls =
      (ls.map (fun l => if autoMatchCond r l then { l with reconciled := true } else l),
       (ls.filter (autoMatchCond r)).length) := by
  induction ls with
  | nil => rfl
  | cons l rest ih =>
      by_cases h : autoMatchCond r l
      · simp [autoMatchLoop, ih, List.filter_cons, h]
      · simp [autoMatchLoop, ih, List.filter_cons, h]

/-- Claim C2: on an in-progress reconciliation, auto matching marks a
candidate line reconciled exactly when its debit is within 0.01 of the
statement debit total or its credit is within 0.01 of the statement credit
total, returns the number of lines so marked, and stores the matched and
unmatched counters; on any other status it raises a ValidationError. -/
theorem auto_match_transactions_spec (r : Reconciliation) (lines : List AccountMoveLine)
    (h_unrec : ∀ l ∈ lines, l.reconciled = false) :
    (r.status = RecStatus.in_progress →
      autoMatchTransactions r lines =
        Except.ok ((lines.filter (autoMatchCond r)).length,
          lines.map (fun l => { l with reconciled := autoMatchCond r l }),
          { r with matched_transactions := ((lines.filter (autoMatchCond r)).length : Int),
                   unmatched_transactions :=
                     r.total_transactions - ((lines.filter (autoMatchCond r)).length : Int) })) ∧
    (r.status ≠ RecStatus.in_progress →
      autoMatchTransactions r lines =
        Except.error "Reconciliation must be in progress to auto-match.") := by
  constructor
  · intro hst
    have hmap : lines.map (fun l => if autoMatchCond r l then { l with reconciled := true } else l)
        = lines.map (fun l => { l with reconciled := autoMatchCond r l }) := by
      apply List.map_congr_left
      intro l hl
      by_cases h : autoMatchCond r l
      · simp [h]
      · cases l with
        | mk id debit credit reconciled =>
            have := h_unrec _ hl
            simp_all
    rw [autoMatchTransactions, if_pos hst, autoMatchLoop_eq, hmap]
  · intro hst
    rw [autoMatchTransactions, if_neg hst]

/-- Witness for claim C2: on the example reconciliation the first line is
marked, the second is not, and the returned count is 1. -/
theorem auto_match_transactions_witness :
    rC2.status = RecStatus.in_progress ∧
    autoMatchTransactions rC2 linesC2 =
      Except.ok (1,
        [ { id := 1, debit := 50, credit := 0, reconciled := true },
          { id := 2, debit := 0, credit := 30, reconciled := false } ],
        { rC2 with matched_transactions := 1, unmatched_transactions := 1 }) := by
  have h1 : autoMatchCond rC2 { id := 1, debit := 50, credit := 0, reconciled := false } = true := by
    simp only [autoMatchCond, rC2, Bool.or_eq_true, decide_eq_true_eq, abs_lt]
    norm_num
  have h2 : autoMatchCond rC2 { id := 2, debit := 0, credit := 30, reconciled := false } = false := by
    simp only [autoMatchCond, rC2, Bool.or_eq_false_iff, decide_eq_false_iff_not, abs_lt]
    norm_num
  refine ⟨rfl, ?_⟩
  have h := (auto_match_transactions_spec rC2 linesC2 (by decide)).1 rfl
  rw [h]
  simp only [linesC2, List.filter_cons, List.map_cons, List.map_nil, h1, h2]
  simp [rC2]

/-- Claim C3 (amended): completing a reconciliation succeeds exactly when
the computed difference is exactly zero, where the difference is the
ending balance minus starting balance plus total credits minus total
debits; otherwise it raises a ValidationError and no state is produced. -/
theorem complete_reconciliation_spec (r : Reconciliation) :
    difference r = r.ending_balance - (r.starting_balance + r.total_credits - r.total_debits) ∧
    (difference r = 0 →
      completeReconciliation r = Except.ok { r with status := RecStatus.completed }) ∧
    (difference r ≠ 0 →
      completeReconciliation r =
        Except.error "Cannot complete reconciliation with outstanding differences.") := by
  refine ⟨rfl, ?_, ?_⟩
  · intro h
    rw [completeReconciliation, if_pos h]
  · intro h
    rw [completeReconciliation, if_neg h]

/-- Claim C3 counterexample: a reconciliation whose difference 0.005 is
within the 0.01 tolerance of zero but is not completed: the method raises
instead. -/
theorem complete_reconciliation_counterexample :
    |difference cexRecC3| < (1 : Money) / 100 ∧
    difference cexRecC3 ≠ 0 ∧
    completeReconciliation cexRecC3 =
      Except.error "Cannot complete reconciliation with outstanding differences." := by
  have hdiff : difference cexRecC3 = 1 / 200 := by
    simp [difference, reconciledBalance, cexRecC3]
  refine ⟨?_, ?_, ?_⟩
  · rw [hdiff, abs_of_pos (by norm_num)]
    norm_num
  · rw [hdiff]
    norm_num
  · rw [completeReconciliation, if_neg]
    rw [hdiff]
    norm_num

/-- Witness for claim C3 at a reconciliation with difference exactly
zero. -/
theorem complete_reconciliation_witness :
    completeReconciliation wRecC3 = Except.ok { wRecC3 with status := RecStatus.completed } :=
  (complete_reconciliation_spec wRecC3).2.1 (by norm_num [difference, reconciledBalance, wRecC3])

/-- Claim C4: with positive total and qualified lead counts, the computed
conversion rates are exactly the count ratios scaled by 100. -/
theorem conversion_rates_spec (r : FunnelAnalytics)
    (h1 : 0 < r.total_leads) (h2 : 0 < r.qualified_leads) :
    (computeConversionRates r).qualification_rate =
      (r.qualified_leads : ℚ) / (r.total_leads : ℚ) * 100 ∧
    (computeConversionRates r).conversion_rate =
      (r.converted_leads : ℚ) / (r.qualified_leads : ℚ) * 100 ∧
    (computeConversionRates r).overall_conversion_rate =
      (r.converted_leads : ℚ) / (r.total_leads : ℚ) * 100 := by
  unfold computeConversionRates
  simp [gt_iff_lt, h1, h2]

/-- Witness for claim C4 at the example analytics record. -/
theorem conversion_rates_witness :
    (computeConversionRates rC4).qualification_rate =
      (rC4.qualified_leads : ℚ) / (rC4.total_leads : ℚ) * 100 ∧
    (computeConversionRates rC4).conversion_rate =
      (rC4.converted_leads : ℚ) / (rC4.qualified_leads : ℚ) * 100 ∧
    (computeConversionRates rC4).overall_conversion_rate =
      (rC4.converted_leads : ℚ) / (rC4.total_leads : ℚ) * 100 :=
  conversion_rates_spec rC4 (by decide) (by decide)

/-- Claim C5, behaviour of the code at concrete inputs: the next-date
computation raises ValueError on 2024-01-31 monthly (February has no day
31), on 2024-02-29 yearly (2025 is not a leap year) and on 2024-11-30
quarterly (February has no day 30), because date.replace keeps the day. -/
theorem calc_next_recurring_date_raises :
    calcNextRecurringDate (some { year := 2024, month := 1, day := 31 })
      (some RecurringPeriod.monthly) = Except.error valueErrorDayRange ∧
    calcNextRecurringDate (some { year := 2024, month := 2, day := 29 })
      (some RecurringPeriod.yearly) = Except.error valueErrorDayRange ∧
    calcNextRecurringDate (some { year := 2024, month := 11, day := 30 })
      (some RecurringPeriod.quarterly) = Except.error valueErrorDayRange :=
  ⟨rfl, rfl, rfl⟩

/-- Claim C6: when the next recurring date computes to a date, the method
creates a copy dated at that date with entry type recurring, the recurring
flag cleared, no next date, and lines with the same accounts, names,
debits and credits; the original record changes in the
next_recurring_date field only. -/
theorem create_next_recurring_entry_spec (m : Move) (nd : Date)
    (_hrec : m.is_recurring = true)
    (hcalc : calcNextRecurringDate m.next_recurring_date m.recurring_period =
      Except.ok (some nd)) :
    ∃ newMove,
      createNextRecurringEntry m =
        Except.ok (some newMove, { m with next_recurring_date := some nd }) ∧
      newMove.date = some nd ∧
      newMove.entry_type = EntryType.recurring ∧
      newMove.is_recurring = false ∧
      newMove.next_recurring_date = none ∧
      newMove.line_ids.length = m.line_ids.length ∧
      ∀ i (hi : i < newMove.line_ids.length) (hm : i < m.line_ids.length),
        (newMove.line_ids.get ⟨i, hi⟩).account_id = (m.line_ids.get ⟨i, hm⟩).account_id ∧
        (newMove.line_ids.get ⟨i, hi⟩).name = (m.line_ids.get ⟨i, hm⟩).name ∧
        (newMove.line_ids.get ⟨i, hi⟩).debit = (m.line_ids.get ⟨i, hm⟩).debit ∧
        (newMove.line_ids.get ⟨i, hi⟩).credit = (m.line_ids.get ⟨i, hm⟩).credit := by
  refine ⟨{ date := some nd,
            ref := some (if refFalsy m.ref then "Recurring - " ++ nd.toIso
                         else (m.ref.getD "") ++ " - " ++ nd.toIso),
            entry_type := EntryType.recurring,
            is_recurring := false,
            recurring_period := none,
            next_recurring_date := none,
            state := MoveState.draft,
            line_ids := m.line_ids.map (fun line =>
              { account_id := line.account_id
                name := line.name
                debit := line.debit
                credit := line.credit
                date_maturity := if line.date_maturity.isSome then some nd else none }) },
    ?_, rfl, rfl, rfl, rfl, by simp, ?_⟩
  · unfold createNextRecurringEntry
    rw [hcalc]
  · intro i hi hm
    simp only [List.get_eq_getElem, List.getElem_map]
    exact ⟨trivial, trivial, trivial, trivial⟩

/-- Witness for claim C6 at the example recurring entry: the next date is
2024-03-11. -/
theorem create_next_recurring_entry_witness :
    ∃ newMove,
      createNextRecurringEntry mC6 =
        Except.ok (some newMove,
          { mC6 with next_recurring_date := some { year := 2024, month := 3, day := 11 } }) ∧
      newMove.date = some ({ year := 2024, month := 3, day := 11 } : Date) ∧
      newMove.entry_type = EntryType.recurring ∧
      newMove.is_recurring = false ∧
      newMove.next_recurring_date = none ∧
      newMove.line_ids.length = mC6.line_ids.length ∧
      ∀ i (hi : i < newMove.line_ids.length) (hm : i < mC6.line_ids.length),
        (newMove.line_ids.get ⟨i, hi⟩).account_id = (mC6.line_ids.get ⟨i, hm⟩).account_id ∧
        (newMove.line_ids.get ⟨i, hi⟩).name = (mC6.line_ids.get ⟨i, hm⟩).name ∧
        (newMove.line_ids.get ⟨i, hi⟩).debit = (mC6.line_ids.get ⟨i, hm⟩).debit ∧
        (newMove.line_ids.get ⟨i, hi⟩).credit = (mC6.line_ids.get ⟨i, hm⟩).credit :=
  create_next_recurring_entry_spec mC6 { year := 2024, month := 3, day := 11 } rfl rfl

/-- Claim C7: every embedded controller endpoint of the account custom API
always returns a JSON dictionary, and when the body raises, the returned
dictionary is the error-message object. -/
theorem controller_error_json_spec :
    ((∀ body, (get_accounts body).isObj = true) ∧
     (∀ body, (get_account body).isObj = true) ∧
     (∀ body, (get_journal_entries body).isObj = true) ∧
     (∀ body, (get_reconciliation_summary_endpoint body).isObj = true) ∧
     (∀ body, (create_reconciliation body).isObj = true) ∧
     (∀ body, (get_account_dashboard body).isObj = true) ∧
     (∀ body, (update_account_budget body).isObj = true) ∧
     (∀ body, (process_recurring_entries body).isObj = true)) ∧
    ((∀ e, get_accounts (Except.error e) = Json.obj [("error", Json.str e)]) ∧
     (∀ e, get_account (Except.error e) = Json.obj [("error", Json.str e)]) ∧
     (∀ e, get_journal_entries (Except.error e) = Json.obj [("error", Json.str e)]) ∧
     (∀ e, get_reconciliation_summary_endpoint (Except.error e) =
        Json.obj [("error", Json.str e)]) ∧
     (∀ e, create_reconciliation (Except.error e) = Json.obj [("error", Json.str e)]) ∧
     (∀ e, get_account_dashboard (Except.error e) = Json.obj [("error", Json.str e)]) ∧
     (∀ e, update_account_budget (Except.error e) = Json.obj [("error", Json.str e)]) ∧
     (∀ e, process_recurring_entries (Except.error e) = Json.obj [("error", Json.str e)])) := by
  refine ⟨⟨?_, ?_, ?_, ?_, ?_, ?_, ?_, ?_⟩,
    fun e => rfl, fun e => rfl, fun e => rfl, fun e => rfl,
    fun e => rfl, fun e => rfl, fun e => rfl, fun e => rfl⟩
  · intro body
    cases body with
    | error e => rfl
    | ok val =>
        obtain ⟨data, total⟩ := val
        rfl
  · intro body
    cases body with
    | error e => rfl
    | ok val => cases val <;> rfl
  · intro body
    cases body with
    | error e => rfl
    | ok val =>
        obtain ⟨data, total⟩ := val
        rfl
  · intro body
    cases body with
    | error e => rfl
    | ok summary => rfl
  · intro body
    cases body with
    | error e => rfl
    | ok rid => rfl
  · intro body
    cases body with
    | error e => rfl
    | ok dash => rfl
  · intro body
    cases body with
    | error e => rfl
    | ok val =>
        cases val with
        | none => rfl
        | some q =>
            obtain ⟨aid, amount, flag, amt2⟩ := q
            rfl
  · intro body
    cases body with
    | error e => rfl
    | ok n => rfl

/-- Claim C8: the contract constraint raises exactly when a set end date
is on or before the start date, a contract without end date passes, and
the leave constraint raises exactly when the start is not before the end
or the start is in the past. -/
theorem date_ordering_constraints :
    (∀ (c : HrContract) (de : Date), c.date_end = some de →
      ((∃ e, contractCheckDates c = Except.error e) ↔ Date.le de c.date_start)) ∧
    (∀ c : HrContract, c.date_end = none → contractCheckDates c = Except.ok ()) ∧
    (∀ (l : HrLeave) (now : Int),
      (∃ e, leaveCheckDates l now = Except.error e) ↔
        (l.date_from ≥ l.date_to ∨ l.date_from < now)) := by
  refine ⟨?_, ?_, ?_⟩
  · intro c de hde
    have heq : contractCheckDates c =
        if Date.le de c.date_start then Except.error "End date must be after start date"
        else Except.ok () := by
      unfold contractCheckDates
      rw [hde]
    rw [heq]
    by_cases h : Date.le de c.date_start
    · rw [if_pos h]
      exact ⟨fun _ => h, fun _ => ⟨_, rfl⟩⟩
    · rw [if_neg h]
      constructor
      · rintro ⟨e, he⟩
        exact absurd he (by simp)
      · intro hle
        exact absurd hle h
  · intro c h
    have heq : contractCheckDates c = Except.ok () := by
      unfold contractCheckDates
      rw [h]
    exact heq
  · intro l now
    unfold leaveCheckDates
    by_cases h1 : l.date_from ≥ l.date_to
    · rw [if_pos h1]
      exact ⟨fun _ => Or.inl h1, fun _ => ⟨_, rfl⟩⟩
    · rw [if_neg h1]
      by_cases h2 : l.date_from < now
      · rw [if_pos h2]
        exact ⟨fun _ => Or.inr h2, fun _ => ⟨_, rfl⟩⟩
      · rw [if_neg h2]
        constructor
        · rintro ⟨e, he⟩
          exact absurd he (by simp)
        · rintro (h | h)
          · exact absurd h h1
          · exact absurd h h2

/-- Witness for claim C8 at a contract ending the day before it starts. -/
theorem date_ordering_constraints_witness :
    (∃ e, contractCheckDates cC8 = Except.error e) ↔
      Date.le { year := 2024, month := 4, day := 30 } cC8.date_start :=
  date_ordering_constraints.1 cC8 { year := 2024, month := 4, day := 30 } rfl

/-- The analytics computation does not touch the period fields. -/
lemma computeAnalyticsData_period (r : FunnelAnalytics) (leads : List CrmLead) :
    (computeAnalyticsData r leads).period_name = r.period_name ∧
    (computeAnalyticsData r leads).period_start = r.period_start ∧
    (computeAnalyticsData r leads).period_end = r.period_end :=
  ⟨rfl, rfl, rfl⟩

/-- When a record with the period name already exists, the call returns it
and leaves the table unchanged. -/
lemma createMonthlyAnalytics_existing (s : List FunnelAnalytics) (leads : List CrmLead)
    (year : Int) (month : Nat) (a : FunnelAnalytics) (rest : List FunnelAnalytics)
    (h : s.filter (fun x => x.period_name == periodName year month) = a :: rest) :
    createMonthlyAnalytics s leads year month = (a, s) := by
  unfold createMonthlyAnalytics
  rw [h]

/-- When no record with the period name exists, the call appends the
freshly computed record. -/
lemma createMonthlyAnalytics_fresh (s : List FunnelAnalytics) (leads : List CrmLead)
    (year : Int) (month : Nat)
    (h : s.filter (fun x => x.period_name == periodName year month) = []) :
    createMonthlyAnalytics s leads year month =
      (computeAnalyticsData (freshMonthlyRecord year month) leads,
       s ++ [computeAnalyticsData (freshMonthlyRecord year month) leads]) := by
  unfold createMonthlyAnalytics
  rw [h]

/-- The first day of the following month minus one day is the last day of
the month. -/
lemma monthPeriodEnd_eq (year : Int) (month : Nat) (h1 : 1 ≤ month) (h2 : month ≤ 12) :
    monthPeriodEnd year month = { year := year, month := month, day := daysInMonth year month } := by
  by_cases h : month = 12
  · subst h
    simp [monthPeriodEnd, Date.predDay, daysInMonth]
  · have hlt : month < 12 := lt_of_le_of_ne h2 h
    rw [monthPeriodEnd, if_neg h, Date.predDay]
    simp only [show ¬(1 < 1) from by norm_num, if_false]
    rw [if_pos (by omega : 1 < month + 1)]
    simp

/-- Claim C9: creating monthly analytics is idempotent on the table, an
existing record for the period is returned without creating a new one, the
number of records for the period becomes the maximum of 1 and its previous
value, and a freshly created record spans the first to the last day of the
month. -/
theorem create_monthly_analytics_spec (s : List FunnelAnalytics) (leads : List CrmLead)
    (year : Int) (month : Nat) (h1 : 1 ≤ month) (h2 : month ≤ 12) :
    ((createMonthlyAnalytics (createMonthlyAnalytics s leads year month).2 leads year month).2 =
      (createMonthlyAnalytics s leads year month).2) ∧
    (∀ a rest, s.filter (fun x => x.period_name == periodName year month) = a :: rest →
      createMonthlyAnalytics s leads year month = (a, s)) ∧
    (((createMonthlyAnalytics s leads year month).2.filter
        (fun x => x.period_name == periodName year month)).length =
      max 1 ((s.filter (fun x => x.period_name == periodName year month)).length)) ∧
    (s.filter (fun x => x.period_name == periodName year month) = [] →
      (createMonthlyAnalytics s leads year month).1.period_name = periodName year month ∧
      (createMonthlyAnalytics s leads year month).1.period_start =
        { year := year, month := month, day := 1 } ∧
      (createMonthlyAnalytics s leads year month).1.period_end =
        { year := year, month := month, day := daysInMonth year month } ∧
      (createMonthlyAnalytics s leads year month).2 =
        s ++ [(createMonthlyAnalytics s leads year month).1]) := by
  have hname : (computeAnalyticsData (freshMonthlyRecord year month) leads).period_name =
      periodName year month := rfl
  refine ⟨?_, ?_, ?_, ?_⟩
  · cases hf : s.filter (fun x => x.period_name == periodName year month) with
    | nil =>
        rw [createMonthlyAnalytics_fresh s leads year month hf]
        have hf2 : (s ++ [computeAnalyticsData (freshMonthlyRecord year month) leads]).filter
            (fun x => x.period_name == periodName year month) =
            [computeAnalyticsData (freshMonthlyRecord year month) leads] := by
          rw [List.filter_append, hf]
          simp [hname]
        rw [createMonthlyAnalytics_existing _ leads year month _ _ hf2]
    | cons a rest =>
        rw [createMonthlyAnalytics_existing s leads year month a rest hf]
        rw [createMonthlyAnalytics_existing s leads year month a rest hf]
  · intro a rest h
    exact createMonthlyAnalytics_existing s leads year month a rest h
  · cases hf : s.filter (fun x => x.period_name == periodName year month) with
    | nil =>
        rw [createMonthlyAnalytics_fresh s leads year month hf]
        rw [List.filter_append, hf]
        simp [hname]
    | cons a rest =>
        rw [createMonthlyAnalytics_existing s leads year month a rest hf, hf]
        exact (max_eq_right (by simp)).symm
  · intro hf
    rw [createMonthlyAnalytics_fresh s leads year month hf]
    refine ⟨rfl, rfl, ?_, rfl⟩
    show (freshMonthlyRecord year month).period_end = _
    rw [freshMonthlyRecord]
    exact monthPeriodEnd_eq year month h1 h2

/-- Witness for claim C9: creating February 2024 analytics on an empty
table yields a record ending on day 29. -/
theorem create_monthly_analytics_witness :
    ((createMonthlyAnalytics (createMonthlyAnalytics emptyTableC9 emptyLeadsC9 2024 2).2 emptyLeadsC9 2024 2).2 =
      (createMonthlyAnalytics emptyTableC9 emptyLeadsC9 2024 2).2) ∧
    (∀ a rest, emptyTableC9.filter (fun x => x.period_name == periodName 2024 2) = a :: rest →
      createMonthlyAnalytics emptyTableC9 emptyLeadsC9 2024 2 = (a, emptyTableC9)) ∧
    (((createMonthlyAnalytics emptyTableC9 emptyLeadsC9 2024 2).2.filter
        (fun x => x.period_name == periodName 2024 2)).length =
      max 1 ((emptyTableC9.filter (fun x => x.period_name == periodName 2024 2)).length)) ∧
    (emptyTableC9.filter (fun x => x.period_name == periodName 2024 2) = [] →
      (createMonthlyAnalytics emptyTableC9 emptyLeadsC9 2024 2).1.period_name = periodName 2024 2 ∧
      (createMonthlyAnalytics emptyTableC9 emptyLeadsC9 2024 2).1.period_start =
        { year := 2024, month := 2, day := 1 } ∧
      (createMonthlyAnalytics emptyTableC9 emptyLeadsC9 2024 2).1.period_end =
        { year := 2024, month := 2, day := daysInMonth 2024 2 } ∧
      (createMonthlyAnalytics emptyTableC9 emptyLeadsC9 2024 2).2 =
        emptyTableC9 ++ [(createMonthlyAnalytics emptyTableC9 emptyLeadsC9 2024 2).1]) :=
  create_monthly_analytics_spec emptyTableC9 emptyLeadsC9 2024 2 (by decide) (by decide)

/-- Claim C10: after auto matching, matched plus unmatched equals the total
transaction count; a successful manual match increments the matched count,
decrements the unmatched count and keeps the total, hence preserves the
sum invariant; a manual match whose move line does not exist raises a
ValidationError, producing no state change. -/
theorem transaction_count_invariant :
    (∀ (r : Reconciliation) (lines : List AccountMoveLine) (cnt : Nat)
        (newLines : List AccountMoveLine) (r2 : Reconciliation),
        autoMatchTransactions r lines = Except.ok (cnt, newLines, r2) →
        r2.matched_transactions + r2.unmatched_transactions = r2.total_transactions) ∧
    (∀ (r : Reconciliation) (lines : List AccountMoveLine) (mlid : Nat)
        (newLines : List AccountMoveLine) (r2 : Reconciliation),
        manualMatch r lines mlid = Except.ok (newLines, r2) →
        r2.matched_transactions = r.matched_transactions + 1 ∧
        r2.unmatched_transactions = r.unmatched_transactions - 1 ∧
        r2.total_transactions = r.total_transactions ∧
        (r.matched_transactions + r.unmatched_transactions = r.total_transactions →
          r2.matched_transactions + r2.unmatched_transactions = r2.total_transactions)) ∧
    (∀ (r : Reconciliation) (lines : List AccountMoveLine) (mlid : Nat),
        lines.find? (fun l => l.id == mlid) = none →
        ∃ e, manualMatch r lines mlid = Except.error e) := by
  refine ⟨?_, ?_, ?_⟩
  · intro r lines cnt newLines r2 h
    rw [autoMatchTransactions] at h
    by_cases hst : r.status = RecStatus.in_progress
    · rw [if_pos hst] at h
      simp only [Except.ok.injEq, Prod.mk.injEq] at h
      obtain ⟨-, -, hr⟩ := h
      rw [← hr]
      dsimp only
      omega
    · rw [if_neg hst] at h
      exact absurd h (by simp)
  · intro r lines mlid newLines r2 h
    rw [manualMatch] at h
    by_cases hst : r.status = RecStatus.in_progress
    · rw [if_pos hst] at h
      cases hfind : lines.find? (fun l => l.id == mlid) with
      | none =>
          rw [hfind] at h
          exact absurd h (by simp)
      | some ml =>
          rw [hfind] at h
          simp only [Except.ok.injEq, Prod.mk.injEq] at h
          obtain ⟨-, hr⟩ := h
          rw [← hr]
          refine ⟨rfl, rfl, rfl, ?_⟩
          intro hsum
          dsimp only
          omega
    · rw [if_neg hst] at h
      exact absurd h (by simp)
  · intro r lines mlid hfind
    rw [manualMatch]
    by_cases hst : r.status = RecStatus.in_progress
    · rw [if_pos hst, hfind]
      exact ⟨_, rfl⟩
    · rw [if_neg hst]
      exact ⟨_, rfl⟩

/-- Witness for claim C10: a manual match against an empty line table
raises. -/
theorem transaction_count_invariant_witness :
    ∃ e, manualMatch recC10 [] 7 = Except.error e :=
  transaction_count_invariant.2.2 recC10 [] 7 rfl

end MytrivERP
